import Mathlib

/-!
Shallow embedding of the authentication and token-lifecycle core of the
FastAPI template repository (src/auth/service.py, src/core/exceptions.py,
src/users/models.py, src/users/router.py, src/settings.py).

Conventions of the embedding:
* the credential store (PostgreSQL via the DAO layer) is a `List User`;
  `UserDAO.get_first` with an email filter is `List.find?` on the email;
* a signed JWT is a `Token`: its claims `Payload` together with the key and
  algorithm it was signed with; `jwt.decode` checks the key/algorithm pair
  and then the `exp` claim (PyJWT raises `ExpiredSignatureError` when
  `exp <= now`, and every decode failure is a subclass of
  `InvalidTokenError`);
* time is an absolute integer timestamp in seconds;
* a raised `HTTPException` is `.error (.http e)`; an unhandled Python
  `AttributeError` (for example `None.email`) is `.error .AttributeError`;
* bcrypt via passlib is salted and non-deterministic in reality; it is
  modelled by a deterministic injective tagging so that
  `verify(p, hash(p)) = true` and mismatches are representable.
-/

structure User where
  id : Nat
  email : String
  password : Option String
  is_superuser : Bool
  is_verified : Bool
deriving Repr, DecidableEq

/-- Public user view returned by login (src/auth/schema.py, UserLoginOutput). -/
structure UserLoginOutput where
  id : Nat
  email : String
  is_verified : Bool
deriving Repr, DecidableEq

/-- Public user view returned by the identity resolver (CurrentUser). -/
structure CurrentUser where
  id : Nat
  email : String
  is_verified : Bool
  is_superuser : Bool
deriving Repr, DecidableEq

/-- Claims carried by a signed token: subject, the truthiness of the
`verify` marker claim (an absent claim reads back as falsy via
`payload.get`), and the absolute expiry timestamp. -/
structure Payload where
  sub : Option String
  verify : Bool
  exp : Int
deriving Repr, DecidableEq

/-- A signed token: the claims plus the key and algorithm used to sign. -/
structure Token where
  payload : Payload
  key : String
  alg : String
deriving Repr, DecidableEq

/-- The data dict handed to the token constructors before `exp` is added. -/
structure ClaimsData where
  sub : Option String
  verify : Bool
deriving Repr, DecidableEq

inductive JwtError where
  | ExpiredSignatureError
  | InvalidTokenError
deriving Repr, DecidableEq

/-- PyJWT decode: signature (key and algorithm) is checked first, then the
`exp` claim; `exp <= now` raises `ExpiredSignatureError`. -/
def jwt.decode (t : Token) (key alg : String) (now : Int) : Except JwtError Payload :=
  if t.key = key ∧ t.alg = alg then
    if t.payload.exp ≤ now then .error .ExpiredSignatureError
    else .ok t.payload
  else .error .InvalidTokenError

/-- HTTPExceptions of src/core/exceptions.py used by the auth core. -/
inductive AppError where
  | InvalidCredentialsException
  | CouldNotValidateCredentialsException
  | InvalidRefreshTokenException
  | VerificationRequiredException
  | InvalidTokenTypeException
  | InvalidTokenPayloadException
  | TokenExpiredException
  | UserExistsException
  | UserNotFoundException
deriving Repr, DecidableEq

def status_code : AppError → Nat
  | .InvalidCredentialsException => 401
  | .CouldNotValidateCredentialsException => 401
  | .InvalidRefreshTokenException => 401
  | .VerificationRequiredException => 403
  | .InvalidTokenTypeException => 400
  | .InvalidTokenPayloadException => 400
  | .TokenExpiredException => 400
  | .UserExistsException => 409
  | .UserNotFoundException => 404

def detail : AppError → String
  | .InvalidCredentialsException => "Invalid credentials"
  | .CouldNotValidateCredentialsException => "Could not validate credentials"
  | .InvalidRefreshTokenException => "Invalid refresh token"
  | .VerificationRequiredException => "Verification required"
  | .InvalidTokenTypeException => "Invalid token type"
  | .InvalidTokenPayloadException => "Invalid token payload"
  | .TokenExpiredException => "Token expired"
  | .UserExistsException => "User already exists"
  | .UserNotFoundException => "User not found"

/-- Outcome of a request handler: an HTTPException surfaced to the client,
or an unhandled Python AttributeError escaping the handler. -/
inductive PyError where
  | http (e : AppError)
  | AttributeError
deriving Repr, DecidableEq

instance {ε α : Type} [DecidableEq ε] [DecidableEq α] : DecidableEq (Except ε α) := by
  intro x y
  cases x with
  | error e =>
      cases y with
      | error f =>
          exact decidable_of_iff (e = f)
            ⟨fun h => by rw [h], fun h => by injection h⟩
      | ok b => exact isFalse (fun h => by injection h)
  | ok a =>
      cases y with
      | error f => exact isFalse (fun h => by injection h)
      | ok b =>
          exact decidable_of_iff (a = b)
            ⟨fun h => by rw [h], fun h => by injection h⟩

/-- Settings (src/settings.py, AuthSettings with env prefix AUTH_). -/
structure AuthSettings where
  ACCESS_TOKEN_EXPIRE_MINUTES : Int
  REFRESH_TOKEN_EXPIRE_DAYS : Int
  EMAIL_VERIFICATION_EXPIRATION_HOURS : Int
  JWT_SECRET_KEY : String
  ALGORITHM : String
deriving Repr, DecidableEq

structure Settings where
  ENV : String
  auth : AuthSettings
deriving Repr, DecidableEq

def Settings.COOKIE_SECURE (_ : Settings) : Bool := true

def Settings.SAMESITE_VALUE (s : Settings) : String :=
  if s.ENV = "prod" then "Lax" else "None"

/-- Deterministic stand-in for passlib bcrypt hashing. -/
def pwd_context.hash (password : String) : String :=
  "bcrypt$" ++ password

def pwd_context.verify (plain hashed : String) : Bool :=
  hashed = "bcrypt$" ++ plain

def get_password_hash (password : String) : String :=
  pwd_context.hash password

/-- verify_password: `if not hashed_password` treats both a missing hash and
an empty one as falsy and raises InvalidCredentialsException. -/
def verify_password (plain_password : String) (hashed_password : Option String) :
    Except AppError Bool :=
  match hashed_password with
  | none => .error .InvalidCredentialsException
  | some h =>
      if h = "" then .error .InvalidCredentialsException
      else .ok (pwd_context.verify plain_password h)

/-- UserDAO.get_first with a `User.email == email` filter. -/
def UserDAO.get_first (db : List User) (email : String) : Option User :=
  db.find? (fun u => u.email = email)

/-- UserDAO.create with email and hashed password keyword arguments: the new
row takes the model defaults is_superuser=false, is_verified=false. -/
def UserDAO.create (db : List User) (email password : String) : List User × User :=
  let user : User := ⟨db.length + 1, email, some password, false, false⟩
  (db ++ [user], user)

/-- UserDAO.update merges by primary key via session.merge. -/
def UserDAO.update (db : List User) (u : User) : List User :=
  if db.any (fun v => v.id = u.id) then
    db.map (fun v => if v.id = u.id then u else v)
  else db ++ [u]

def check_user_exists (db : List User) (email : String) : Except AppError Unit :=
  match UserDAO.get_first db email with
  | some _ => .error .UserExistsException
  | none => .ok ()

def authenticate_user (db : List User) (email password : String) :
    Except AppError UserLoginOutput :=
  match UserDAO.get_first db email with
  | none => .error .InvalidCredentialsException
  | some user =>
      match verify_password password user.password with
      | .error e => .error e
      | .ok b =>
          if b then .ok ⟨user.id, user.email, user.is_verified⟩
          else .error .InvalidCredentialsException

def create_access_token (s : AuthSettings) (data : ClaimsData) (expires_delta now : Int) :
    Token :=
  ⟨⟨data.sub, data.verify, now + expires_delta⟩, s.JWT_SECRET_KEY, s.ALGORITHM⟩

def create_refresh_token (s : AuthSettings) (data : ClaimsData) (expires_delta now : Int) :
    Token :=
  ⟨⟨data.sub, data.verify, now + expires_delta⟩, s.JWT_SECRET_KEY, s.ALGORITHM⟩

/-- The dict returned by create_tokens. -/
structure Tokens where
  access_token : Token
  refresh_token : Token
  token_type : String
  access_token_expires : Int
  refresh_token_expires : Int
deriving Repr, DecidableEq

/-- create_tokens: mints the pair from the user. Its docstring promises to
save the refresh token to the database, but the body performs no store
write, so the embedding takes no store and returns none. A `none` user
raises AttributeError at `user.email`. -/
def create_tokens (s : AuthSettings) (user : Option UserLoginOutput) (now : Int) :
    Except PyError Tokens :=
  match user with
  | none => .error .AttributeError
  | some u =>
      let access_token_expires := 60 * s.ACCESS_TOKEN_EXPIRE_MINUTES
      let refresh_token_expires := 86400 * s.REFRESH_TOKEN_EXPIRE_DAYS
      .ok ⟨create_access_token s ⟨some u.email, false⟩ access_token_expires now,
           create_refresh_token s ⟨some u.email, false⟩ refresh_token_expires now,
           "bearer", access_token_expires, refresh_token_expires⟩

structure Cookie where
  value : Token
  httponly : Bool
  secure : Bool
  samesite : String
  max_age : Int
deriving Repr, DecidableEq

structure ResponseCookies where
  access_token : Option Cookie
  refresh_token : Option Cookie
deriving Repr, DecidableEq

def set_cookies (s : Settings) (access_token refresh_token : Token)
    (access_token_expires refresh_token_expires : Int) : ResponseCookies :=
  ⟨some ⟨access_token, true, s.COOKIE_SECURE, s.SAMESITE_VALUE, access_token_expires⟩,
   some ⟨refresh_token, true, s.COOKIE_SECURE, s.SAMESITE_VALUE, refresh_token_expires⟩⟩

structure TokenOutput where
  access_token : Token
  refresh_token : Option Token
  token_type : String
  user_data : UserLoginOutput
deriving Repr, DecidableEq

/-- Result of a successful login: the minted pair, the cookies written to
the response, the response body, and the credential store after the call.
The body of login_user performs no store write (authenticate_user only
reads; create_tokens only computes, despite its docstring), so the
post-state is the pre-state. -/
structure LoginResult where
  tokens : Tokens
  cookies : ResponseCookies
  token_output : TokenOutput
  db_after : List User
deriving Repr, DecidableEq

def login_user (s : Settings) (db : List User) (username password : String) (now : Int) :
    Except PyError LoginResult :=
  match authenticate_user db username password with
  | .error e => .error (.http e)
  | .ok user =>
      match create_tokens s.auth (some user) now with
      | .error e => .error e
      | .ok tokens =>
          .ok ⟨tokens,
               set_cookies s tokens.access_token tokens.refresh_token
                 tokens.access_token_expires tokens.refresh_token_expires,
               ⟨tokens.access_token, some tokens.refresh_token, tokens.token_type, user⟩,
               db⟩

def logout_user : ResponseCookies :=
  ⟨none, none⟩

/-- Result of a successful refresh; as in login, the body performs no store
write, so the post-state is the pre-state. -/
structure RefreshResult where
  tokens : Tokens
  cookies : ResponseCookies
  token_output : TokenOutput
  db_after : List User
deriving Repr, DecidableEq

/-- refresh_user_token: the cookie jar may lack the refresh_token cookie.
After a successful decode the user lookup result is handed to
create_tokens unchecked; a missing user therefore raises AttributeError
inside create_tokens at `user.email`: the none arm below returns the same
`.error .AttributeError` that `create_tokens s.auth none now` produces
(see the none branch of create_tokens). -/
def refresh_user_token (s : Settings) (db : List User) (cookie : Option Token) (now : Int) :
    Except PyError RefreshResult :=
  match cookie with
  | none => .error (.http .InvalidRefreshTokenException)
  | some refresh_token =>
      match jwt.decode refresh_token s.auth.JWT_SECRET_KEY s.auth.ALGORITHM now with
      | .error _ => .error (.http .InvalidRefreshTokenException)
      | .ok payload =>
          match
            match payload.sub with
            | none => none
            | some email => UserDAO.get_first db email
          with
          | none => .error .AttributeError
          | some u =>
              let uo : UserLoginOutput := ⟨u.id, u.email, u.is_verified⟩
              match create_tokens s.auth (some uo) now with
              | .error e => .error e
              | .ok new_tokens =>
                  .ok ⟨new_tokens,
                       set_cookies s new_tokens.access_token new_tokens.refresh_token
                         new_tokens.access_token_expires new_tokens.refresh_token_expires,
                       ⟨new_tokens.access_token, some new_tokens.refresh_token,
                        new_tokens.token_type, uo⟩,
                       db⟩

def create_email_verification_token (s : AuthSettings) (email : String) (now : Int) :
    Token :=
  ⟨⟨some email, true, now + 3600 * s.EMAIL_VERIFICATION_EXPIRATION_HOURS⟩,
   s.JWT_SECRET_KEY, s.ALGORITHM⟩

/-- Result of a successful registration: the store with the new row, the
minted verification token, and the queued background email tasks. -/
structure RegisterResult where
  db_after : List User
  token : Token
  background : List (String × Token)
deriving Repr, DecidableEq

def register_user (s : Settings) (db : List User) (email password : String) (now : Int) :
    Except PyError RegisterResult :=
  match check_user_exists db email with
  | .error e => .error (.http e)
  | .ok _ =>
      let hashed_password := get_password_hash password
      let db1 := (UserDAO.create db email hashed_password).1
      let token := create_email_verification_token s.auth email now
      .ok ⟨db1, token, [(email, token)]⟩

/-- The register endpoint as observed by the client: HTTP status, the store
after the request, and whether the background verification email was later
delivered. Delivery runs after the response (fire and forget), so the
status never depends on it; a delivery failure is only logged. -/
def register_request (s : Settings) (db : List User) (email password : String)
    (now : Int) (delivery_ok : Bool) : Nat × List User × Bool :=
  match register_user s db email password now with
  | .error (.http e) => (status_code e, db, false)
  | .error .AttributeError => (500, db, false)
  | .ok r => (201, r.db_after, delivery_ok)

def get_current_user (s : Settings) (db : List User) (token : Token) (now : Int) :
    Except PyError CurrentUser :=
  match jwt.decode token s.auth.JWT_SECRET_KEY s.auth.ALGORITHM now with
  | .error _ => .error (.http .CouldNotValidateCredentialsException)
  | .ok payload =>
      match payload.sub with
      | none => .error (.http .CouldNotValidateCredentialsException)
      | some email =>
          match UserDAO.get_first db email with
          | none => .error (.http .CouldNotValidateCredentialsException)
          | some user => .ok ⟨user.id, user.email, user.is_verified, user.is_superuser⟩

def get_current_verified_user (current_user : CurrentUser) :
    Except PyError CurrentUser :=
  if current_user.is_verified = false then .error (.http .VerificationRequiredException)
  else .ok current_user

/-- GET /users/profile/me: identity resolution through the verified gate
(src/users/router.py with the CurrentUserDep dependency chain). -/
def get_user_handler (s : Settings) (db : List User) (token : Token) (now : Int) :
    Except PyError CurrentUser :=
  match get_current_user s db token now with
  | .error e => .error e
  | .ok current_user => get_current_verified_user current_user

def verify_email (s : Settings) (db : List User) (token : Token) (now : Int) :
    Except PyError (List User) :=
  match jwt.decode token s.auth.JWT_SECRET_KEY s.auth.ALGORITHM now with
  | .error .ExpiredSignatureError => .error (.http .TokenExpiredException)
  | .error .InvalidTokenError => .error (.http .InvalidTokenTypeException)
  | .ok payload =>
      if payload.verify = false then .error (.http .InvalidTokenTypeException)
      else
        match payload.sub with
        | none => .error (.http .InvalidTokenPayloadException)
        | some email =>
            match UserDAO.get_first db email with
            | none => .error (.http .UserNotFoundException)
            | some user =>
                .ok (UserDAO.update db
                  ⟨user.id, user.email, user.password, user.is_superuser, true⟩)

/-- The store as it stands after a verify_email call: a raised exception
aborts the handler before any write. -/
def verify_email_post (s : Settings) (db : List User) (token : Token) (now : Int) :
    List User :=
  match verify_email s db token now with
  | .error _ => db
  | .ok db1 => db1

/-- Concrete settings used as witnesses: the defaults of AuthSettings with a
test secret. -/
def s0 : Settings :=
  ⟨"test", ⟨60, 2, 24, "secret", "HS256"⟩⟩

def u0 : User :=
  ⟨1, "a@x.com", some (get_password_hash "pw123456"), false, false⟩

def db0 : List User :=
  [u0]

theorem find_map_update (db : List User) (email : String) (u w : User)
    (hfind : db.find? (fun v => v.email = email) = some u)
    (hid : w.id = u.id) (hemail : w.email = u.email) :
    (db.map (fun v => if v.id = w.id then w else v)).find?
      (fun v => v.email = email) = some w := by
  have hue : u.email = email := by
    have h := List.find?_some hfind
    simpa using h
  induction db with
  | nil => simp at hfind
  | cons a tl ih =>
      simp only [List.map_cons]
      by_cases ha : a.email = email
      · have hau : a = u := by
          rw [List.find?_cons_of_pos _ (by simpa using ha)] at hfind
          exact Option.some.inj hfind
        have haw : a.id = w.id := by rw [hau, hid]
        rw [if_pos haw]
        exact List.find?_cons_of_pos _ (by simp [hemail, hue])
      · rw [List.find?_cons_of_neg _ (by simpa using ha)] at hfind
        by_cases hai : a.id = w.id
        · rw [if_pos hai]
          exact List.find?_cons_of_pos _ (by simp [hemail, hue])
        · rw [if_neg hai]
          rw [List.find?_cons_of_neg _ (by simpa using ha)]
          exact ih hfind

theorem get_first_update (db : List User) (email : String) (u w : User)
    (hfind : UserDAO.get_first db email = some u)
    (hid : w.id = u.id) (hemail : w.email = u.email) :
    UserDAO.get_first (UserDAO.update db w) email = some w := by
  have hmem : u ∈ db := List.mem_of_find?_eq_some hfind
  have hany : db.any (fun v => v.id = w.id) = true :=
    List.any_eq_true.mpr ⟨u, hmem, by simp [hid]⟩
  unfold UserDAO.update
  rw [if_pos hany]
  exact find_map_update db email u w hfind hid hemail

theorem verify_password_error_shape (plain : String) (hp : Option String) (e : AppError)
    (h : verify_password plain hp = .error e) : e = .InvalidCredentialsException := by
  cases hp with
  | none =>
      simp only [verify_password] at h
      injection h with h
      exact h.symm
  | some s =>
      simp only [verify_password] at h
      by_cases hs : s = ""
      · rw [if_pos hs] at h
        injection h with h
        exact h.symm
      · rw [if_neg hs] at h
        exact absurd h (by simp)

/-- Claim C1, counterexample: a token minted by create_refresh_token (and
likewise one minted by create_email_verification_token), with a valid
signature, an unexpired expiry and a subject claim, is ACCEPTED by
get_current_user, not rejected: the resolver never inspects a purpose
marker. -/
theorem C1_counterexample :
    get_current_user s0 db0
        (create_refresh_token s0.auth ⟨some "a@x.com", false⟩ 172800 0) 100 =
      .ok ⟨1, "a@x.com", false, false⟩ ∧
    get_current_user s0 db0
        (create_email_verification_token s0.auth "a@x.com" 0) 100 =
      .ok ⟨1, "a@x.com", false, false⟩ := by
  constructor <;> decide

/-- Claim C1 (amended): get_current_user performs no purpose check at all:
every token signed with the server key and algorithm whose expiry has not
passed and whose subject claim resolves to a stored user is accepted,
whatever its purpose markers (in particular refresh and email-verification
tokens); the only purpose-specific check in the codebase is the
`verify` marker check inside verify_email. -/
theorem C1_no_purpose_check (s : Settings) (db : List User) (p : Payload)
    (now : Int) (email : String) (u : User)
    (hexp : now < p.exp) (hsub : p.sub = some email)
    (hu : UserDAO.get_first db email = some u) :
    get_current_user s db ⟨p, s.auth.JWT_SECRET_KEY, s.auth.ALGORITHM⟩ now =
      .ok ⟨u.id, u.email, u.is_verified, u.is_superuser⟩ := by
  unfold get_current_user jwt.decode
  rw [if_pos ⟨rfl, rfl⟩, if_neg (not_le.mpr hexp)]
  simp [hsub, hu]

theorem C1_no_purpose_check_witness :
    get_current_user s0 db0
        ⟨⟨some "a@x.com", true, 86400⟩, s0.auth.JWT_SECRET_KEY, s0.auth.ALGORITHM⟩ 100 =
      .ok ⟨u0.id, u0.email, u0.is_verified, u0.is_superuser⟩ :=
  C1_no_purpose_check s0 db0 ⟨some "a@x.com", true, 86400⟩ 100 "a@x.com" u0
    (by decide) rfl (by decide)

/-- Claim C3: every failed login attempt, whether the email is unknown or
the password does not match the stored hash (including a missing or empty
stored hash), yields the one error InvalidCredentialsException, with
status 401 and detail "Invalid credentials" in all cases, so the failure
causes are indistinguishable to the caller. -/
theorem C3_uniform_login_failure (db : List User) (email password : String)
    (h : ∀ u, UserDAO.get_first db email = some u →
          verify_password password u.password ≠ .ok true) :
    authenticate_user db email password = .error .InvalidCredentialsException ∧
    status_code .InvalidCredentialsException = 401 ∧
    detail .InvalidCredentialsException = "Invalid credentials" := by
  refine ⟨?_, rfl, rfl⟩
  unfold authenticate_user
  split
  · rfl
  · rename_i u hfind
    split
    · rename_i e hv
      rw [verify_password_error_shape password u.password e hv]
    · rename_i b hv
      cases b with
      | false => rfl
      | true => exact absurd hv (h u hfind)

theorem C3_uniform_login_failure_witness :
    authenticate_user db0 "a@x.com" "wrongpw" = .error .InvalidCredentialsException ∧
    status_code .InvalidCredentialsException = 401 ∧
    detail .InvalidCredentialsException = "Invalid credentials" :=
  C3_uniform_login_failure db0 "a@x.com" "wrongpw"
    (by
      intro u hu
      have h0 : UserDAO.get_first db0 "a@x.com" = some u0 := by decide
      rw [h0] at hu
      cases hu
      decide)

theorem create_tokens_none (s : AuthSettings) (now : Int) :
    create_tokens s none now = .error .AttributeError :=
  rfl

theorem jwt_decode_own_key (s : Settings) (p : Payload) (now : Int)
    (hexp : now < p.exp) :
    jwt.decode ⟨p, s.auth.JWT_SECRET_KEY, s.auth.ALGORITHM⟩
      s.auth.JWT_SECRET_KEY s.auth.ALGORITHM now = .ok p := by
  unfold jwt.decode
  rw [if_pos ⟨rfl, rfl⟩, if_neg (not_le.mpr hexp)]

theorem jwt_decode_expired (s : Settings) (p : Payload) (now : Int)
    (hexp : p.exp ≤ now) :
    jwt.decode ⟨p, s.auth.JWT_SECRET_KEY, s.auth.ALGORITHM⟩
      s.auth.JWT_SECRET_KEY s.auth.ALGORITHM now = .error .ExpiredSignatureError := by
  unfold jwt.decode
  rw [if_pos ⟨rfl, rfl⟩, if_pos hexp]

theorem verify_email_ok (s : Settings) (db : List User) (tok : Token) (now : Int)
    (email : String) (u : User) (p : Payload)
    (hdec : jwt.decode tok s.auth.JWT_SECRET_KEY s.auth.ALGORITHM now = .ok p)
    (hv : p.verify = true) (hs : p.sub = some email)
    (hu : UserDAO.get_first db email = some u) :
    verify_email s db tok now =
      .ok (UserDAO.update db ⟨u.id, u.email, u.password, u.is_superuser, true⟩) := by
  unfold verify_email
  rw [hdec]
  simp [hv, hs, hu]

/-- Claim C4: a token whose signature is valid and expiry unexpired but
whose `verify` marker claim is absent or falsy makes verify_email fail
with InvalidTokenTypeException (HTTP 400), and the credential store is
left unchanged. -/
theorem C4_missing_verify_marker (s : Settings) (db : List User) (p : Payload)
    (now : Int) (hexp : now < p.exp) (hv : p.verify = false) :
    verify_email s db ⟨p, s.auth.JWT_SECRET_KEY, s.auth.ALGORITHM⟩ now =
      .error (.http .InvalidTokenTypeException) ∧
    verify_email_post s db ⟨p, s.auth.JWT_SECRET_KEY, s.auth.ALGORITHM⟩ now = db ∧
    status_code .InvalidTokenTypeException = 400 := by
  have h1 : verify_email s db ⟨p, s.auth.JWT_SECRET_KEY, s.auth.ALGORITHM⟩ now =
      .error (.http .InvalidTokenTypeException) := by
    unfold verify_email
    rw [jwt_decode_own_key s p now hexp]
    simp [hv]
  refine ⟨h1, ?_, rfl⟩
  unfold verify_email_post
  rw [h1]

theorem C4_missing_verify_marker_witness :
    verify_email s0 db0
        ⟨⟨some "a@x.com", false, 3600⟩, s0.auth.JWT_SECRET_KEY, s0.auth.ALGORITHM⟩ 100 =
      .error (.http .InvalidTokenTypeException) ∧
    verify_email_post s0 db0
        ⟨⟨some "a@x.com", false, 3600⟩, s0.auth.JWT_SECRET_KEY, s0.auth.ALGORITHM⟩ 100 = db0 ∧
    status_code .InvalidTokenTypeException = 400 :=
  C4_missing_verify_marker s0 db0 ⟨some "a@x.com", false, 3600⟩ 100 (by decide) rfl

/-- Claim C5: an expired verification token makes verify_email fail with
TokenExpiredException (HTTP 400), an error distinct from the other
verification-token errors, while an expired refresh token makes refresh
fail with InvalidRefreshTokenException (HTTP 401); at the boundary, a
token with expiry one second before now is expired and one with expiry
one second after now decodes successfully. -/
theorem C5_expiry_asymmetry (s : Settings) (db : List User) (p : Payload) (now : Int)
    (hexp : p.exp ≤ now) :
    verify_email s db ⟨p, s.auth.JWT_SECRET_KEY, s.auth.ALGORITHM⟩ now =
      .error (.http .TokenExpiredException) ∧
    refresh_user_token s db (some ⟨p, s.auth.JWT_SECRET_KEY, s.auth.ALGORITHM⟩) now =
      .error (.http .InvalidRefreshTokenException) ∧
    status_code .TokenExpiredException = 400 ∧
    status_code .InvalidRefreshTokenException = 401 ∧
    AppError.TokenExpiredException ≠ AppError.InvalidTokenTypeException ∧
    AppError.TokenExpiredException ≠ AppError.InvalidTokenPayloadException ∧
    (∀ q : Payload, q.exp = now - 1 →
        jwt.decode ⟨q, s.auth.JWT_SECRET_KEY, s.auth.ALGORITHM⟩
          s.auth.JWT_SECRET_KEY s.auth.ALGORITHM now = .error .ExpiredSignatureError) ∧
    (∀ q : Payload, q.exp = now + 1 →
        jwt.decode ⟨q, s.auth.JWT_SECRET_KEY, s.auth.ALGORITHM⟩
          s.auth.JWT_SECRET_KEY s.auth.ALGORITHM now = .ok q) := by
  have hdec := jwt_decode_expired s p now hexp
  refine ⟨?_, ?_, rfl, rfl, by decide, by decide, ?_, ?_⟩
  · unfold verify_email
    rw [hdec]
  · unfold refresh_user_token
    simp only [hdec]
  · intro q hq
    exact jwt_decode_expired s q now (by omega)
  · intro q hq
    exact jwt_decode_own_key s q now (by omega)

theorem C5_expiry_asymmetry_witness :
    verify_email s0 db0
        ⟨⟨some "a@x.com", true, 99⟩, s0.auth.JWT_SECRET_KEY, s0.auth.ALGORITHM⟩ 100 =
      .error (.http .TokenExpiredException) ∧
    refresh_user_token s0 db0
        (some ⟨⟨some "a@x.com", true, 99⟩, s0.auth.JWT_SECRET_KEY, s0.auth.ALGORITHM⟩) 100 =
      .error (.http .InvalidRefreshTokenException) ∧
    status_code .TokenExpiredException = 400 ∧
    status_code .InvalidRefreshTokenException = 401 ∧
    AppError.TokenExpiredException ≠ AppError.InvalidTokenTypeException ∧
    AppError.TokenExpiredException ≠ AppError.InvalidTokenPayloadException ∧
    (∀ q : Payload, q.exp = 100 - 1 →
        jwt.decode ⟨q, s0.auth.JWT_SECRET_KEY, s0.auth.ALGORITHM⟩
          s0.auth.JWT_SECRET_KEY s0.auth.ALGORITHM 100 = .error .ExpiredSignatureError) ∧
    (∀ q : Payload, q.exp = 100 + 1 →
        jwt.decode ⟨q, s0.auth.JWT_SECRET_KEY, s0.auth.ALGORITHM⟩
          s0.auth.JWT_SECRET_KEY s0.auth.ALGORITHM 100 = .ok q) :=
  C5_expiry_asymmetry s0 db0 ⟨some "a@x.com", true, 99⟩ 100 (by decide)

/-- Claim C6: decoding the token produced by encoding a claims set before
its expiry recovers the original subject and purpose markers, for access,
refresh and email-verification tokens; in particular the token minted by
create_email_verification_token decodes inside verify_email to a payload
with sub = email and verify = true, so verification succeeds for a stored
user. -/
theorem C6_roundtrip (s : Settings) (data : ClaimsData) (delta now t : Int)
    (email : String)
    (h1 : t < now + delta)
    (h2 : t < now + 3600 * s.auth.EMAIL_VERIFICATION_EXPIRATION_HOURS) :
    jwt.decode (create_access_token s.auth data delta now)
        s.auth.JWT_SECRET_KEY s.auth.ALGORITHM t =
      .ok ⟨data.sub, data.verify, now + delta⟩ ∧
    jwt.decode (create_refresh_token s.auth data delta now)
        s.auth.JWT_SECRET_KEY s.auth.ALGORITHM t =
      .ok ⟨data.sub, data.verify, now + delta⟩ ∧
    jwt.decode (create_email_verification_token s.auth email now)
        s.auth.JWT_SECRET_KEY s.auth.ALGORITHM t =
      .ok ⟨some email, true, now + 3600 * s.auth.EMAIL_VERIFICATION_EXPIRATION_HOURS⟩ ∧
    (∀ db u, UserDAO.get_first db email = some u →
        verify_email s db (create_email_verification_token s.auth email now) t =
          .ok (UserDAO.update db ⟨u.id, u.email, u.password, u.is_superuser, true⟩)) := by
  have hd3 : jwt.decode (create_email_verification_token s.auth email now)
      s.auth.JWT_SECRET_KEY s.auth.ALGORITHM t =
      .ok ⟨some email, true, now + 3600 * s.auth.EMAIL_VERIFICATION_EXPIRATION_HOURS⟩ :=
    jwt_decode_own_key s ⟨some email, true, _⟩ t
      (show t < now + 3600 * s.auth.EMAIL_VERIFICATION_EXPIRATION_HOURS from h2)
  refine ⟨jwt_decode_own_key s ⟨data.sub, data.verify, now + delta⟩ t
            (show t < now + delta from h1),
          jwt_decode_own_key s ⟨data.sub, data.verify, now + delta⟩ t
            (show t < now + delta from h1),
          hd3, ?_⟩
  intro db u hu
  exact verify_email_ok s db _ t email u _ hd3 rfl rfl hu

theorem C6_roundtrip_witness :
    jwt.decode (create_access_token s0.auth ⟨some "a@x.com", false⟩ 3600 0)
        s0.auth.JWT_SECRET_KEY s0.auth.ALGORITHM 100 =
      .ok ⟨some "a@x.com", false, 0 + 3600⟩ ∧
    jwt.decode (create_refresh_token s0.auth ⟨some "a@x.com", false⟩ 3600 0)
        s0.auth.JWT_SECRET_KEY s0.auth.ALGORITHM 100 =
      .ok ⟨some "a@x.com", false, 0 + 3600⟩ ∧
    jwt.decode (create_email_verification_token s0.auth "a@x.com" 0)
        s0.auth.JWT_SECRET_KEY s0.auth.ALGORITHM 100 =
      .ok ⟨some "a@x.com", true, 0 + 3600 * s0.auth.EMAIL_VERIFICATION_EXPIRATION_HOURS⟩ ∧
    (∀ db u, UserDAO.get_first db "a@x.com" = some u →
        verify_email s0 db (create_email_verification_token s0.auth "a@x.com" 0) 100 =
          .ok (UserDAO.update db ⟨u.id, u.email, u.password, u.is_superuser, true⟩)) :=
  C6_roundtrip s0 ⟨some "a@x.com", false⟩ 3600 0 100 "a@x.com" (by decide) (by decide)

/-- Claim C7: verify-email is idempotent in effect: for a stored user and a
valid unexpired verification token bearing that user's email, running
verify_email twice succeeds both times and after each run the stored user
is verified; the second run is not short-circuited, it performs the same
update again. -/
theorem C7_verify_email_idempotent (s : Settings) (db : List User) (u : User)
    (email : String) (p : Payload) (now : Int)
    (hexp : now < p.exp) (hv : p.verify = true) (hs : p.sub = some email)
    (hfind : UserDAO.get_first db email = some u) :
    ∃ db1 db2,
      verify_email s db ⟨p, s.auth.JWT_SECRET_KEY, s.auth.ALGORITHM⟩ now = .ok db1 ∧
      verify_email s db1 ⟨p, s.auth.JWT_SECRET_KEY, s.auth.ALGORITHM⟩ now = .ok db2 ∧
      (∃ v, UserDAO.get_first db1 email = some v ∧ v.is_verified = true) ∧
      (∃ v, UserDAO.get_first db2 email = some v ∧ v.is_verified = true) := by
  have hdec := jwt_decode_own_key s p now hexp
  have h1 := verify_email_ok s db _ now email u p hdec hv hs hfind
  have hfind1 : UserDAO.get_first
      (UserDAO.update db ⟨u.id, u.email, u.password, u.is_superuser, true⟩) email =
      some ⟨u.id, u.email, u.password, u.is_superuser, true⟩ :=
    get_first_update db email u _ hfind rfl rfl
  have h2 := verify_email_ok s
    (UserDAO.update db ⟨u.id, u.email, u.password, u.is_superuser, true⟩) _ now email
    ⟨u.id, u.email, u.password, u.is_superuser, true⟩ p hdec hv hs hfind1
  have hfind2 := get_first_update
    (UserDAO.update db ⟨u.id, u.email, u.password, u.is_superuser, true⟩) email
    ⟨u.id, u.email, u.password, u.is_superuser, true⟩
    ⟨u.id, u.email, u.password, u.is_superuser, true⟩ hfind1 rfl rfl
  exact ⟨_, _, h1, h2, ⟨_, hfind1, rfl⟩, ⟨_, hfind2, rfl⟩⟩

theorem C7_verify_email_idempotent_witness :
    ∃ db1 db2,
      verify_email s0 db0
          ⟨⟨some "a@x.com", true, 3600⟩, s0.auth.JWT_SECRET_KEY, s0.auth.ALGORITHM⟩ 100 =
        .ok db1 ∧
      verify_email s0 db1
          ⟨⟨some "a@x.com", true, 3600⟩, s0.auth.JWT_SECRET_KEY, s0.auth.ALGORITHM⟩ 100 =
        .ok db2 ∧
      (∃ v, UserDAO.get_first db1 "a@x.com" = some v ∧ v.is_verified = true) ∧
      (∃ v, UserDAO.get_first db2 "a@x.com" = some v ∧ v.is_verified = true) :=
  C7_verify_email_idempotent s0 db0 u0 "a@x.com" ⟨some "a@x.com", true, 3600⟩ 100
    (by decide) rfl rfl (by decide)

theorem get_current_user_ok (s : Settings) (db : List User) (p : Payload)
    (now : Int) (email : String) (u : User)
    (hexp : now < p.exp) (hsub : p.sub = some email)
    (hu : UserDAO.get_first db email = some u) :
    get_current_user s db ⟨p, s.auth.JWT_SECRET_KEY, s.auth.ALGORITHM⟩ now =
      .ok ⟨u.id, u.email, u.is_verified, u.is_superuser⟩ := by
  unfold get_current_user
  rw [jwt_decode_own_key s p now hexp]
  simp [hsub, hu]

/-- Claim C2 (code defect): contrary to the docstrings of create_tokens
("Save the refresh token to the database for further use") and login_user
("Refresh token will be stored in database"), neither a successful login
nor a successful refresh writes anything to the credential store: the
store after either call equals the store before it, so no refresh-token
state is persisted or rotated. -/
theorem C2_no_refresh_persistence (s : Settings) (db : List User)
    (username password : String) (cookie : Option Token) (now : Int)
    (r : LoginResult) (r2 : RefreshResult)
    (hl : login_user s db username password now = .ok r)
    (hr : refresh_user_token s db cookie now = .ok r2) :
    r.db_after = db ∧ r2.db_after = db := by
  constructor
  · unfold login_user at hl
    split at hl
    · exact absurd hl (by simp)
    · rename_i user hau
      simp only [create_tokens] at hl
      injection hl with hl
      rw [← hl]
  · unfold refresh_user_token at hr
    split at hr
    · exact absurd hr (by simp)
    · rename_i tok
      split at hr
      · exact absurd hr (by simp)
      · rename_i payload hdec
        split at hr
        · exact absurd hr (by simp)
        · rename_i u2 hu2
          simp only [create_tokens] at hr
          injection hr with hr
          rw [← hr]

theorem C2_no_refresh_persistence_witness :
    ∃ r r2,
      login_user s0 db0 "a@x.com" "pw123456" 0 = .ok r ∧
      refresh_user_token s0 db0
        (some ⟨⟨some "a@x.com", false, 172800⟩, s0.auth.JWT_SECRET_KEY, s0.auth.ALGORITHM⟩) 0 =
        .ok r2 ∧
      r.db_after = db0 ∧ r2.db_after = db0 := by
  have hl : login_user s0 db0 "a@x.com" "pw123456" 0 =
      .ok ⟨⟨create_access_token s0.auth ⟨some "a@x.com", false⟩ 3600 0,
            create_refresh_token s0.auth ⟨some "a@x.com", false⟩ 172800 0,
            "bearer", 3600, 172800⟩,
           set_cookies s0
             (create_access_token s0.auth ⟨some "a@x.com", false⟩ 3600 0)
             (create_refresh_token s0.auth ⟨some "a@x.com", false⟩ 172800 0) 3600 172800,
           ⟨create_access_token s0.auth ⟨some "a@x.com", false⟩ 3600 0,
            some (create_refresh_token s0.auth ⟨some "a@x.com", false⟩ 172800 0),
            "bearer", ⟨1, "a@x.com", false⟩⟩,
           db0⟩ := by decide
  have hr : refresh_user_token s0 db0
      (some ⟨⟨some "a@x.com", false, 172800⟩, s0.auth.JWT_SECRET_KEY, s0.auth.ALGORITHM⟩) 0 =
      .ok ⟨⟨create_access_token s0.auth ⟨some "a@x.com", false⟩ 3600 0,
            create_refresh_token s0.auth ⟨some "a@x.com", false⟩ 172800 0,
            "bearer", 3600, 172800⟩,
           set_cookies s0
             (create_access_token s0.auth ⟨some "a@x.com", false⟩ 3600 0)
             (create_refresh_token s0.auth ⟨some "a@x.com", false⟩ 172800 0) 3600 172800,
           ⟨create_access_token s0.auth ⟨some "a@x.com", false⟩ 3600 0,
            some (create_refresh_token s0.auth ⟨some "a@x.com", false⟩ 172800 0),
            "bearer", ⟨1, "a@x.com", false⟩⟩,
           db0⟩ := by decide
  exact ⟨_, _, hl, hr,
    (C2_no_refresh_persistence s0 db0 "a@x.com" "pw123456" _ 0 _ _ hl hr).1,
    (C2_no_refresh_persistence s0 db0 "a@x.com" "pw123456" _ 0 _ _ hl hr).2⟩

/-- Claim C8: registration order and outcome: when a user with the email
already exists it fails with UserExistsException (HTTP 409) before any
write and the store is unchanged; otherwise it hashes the password,
appends a User row with is_verified=false carrying that hash, mints an
email-verification token, schedules the verification email as a
background task, and the request returns 201 whatever the later delivery
outcome d. -/
theorem C8_register_step_order (s : Settings) (db : List User)
    (email password : String) (now : Int) (d : Bool) :
    (∀ u, UserDAO.get_first db email = some u →
        register_user s db email password now = .error (.http .UserExistsException) ∧
        register_request s db email password now d = (409, db, false)) ∧
    (UserDAO.get_first db email = none →
        ∃ r, register_user s db email password now = .ok r ∧
          r.db_after =
            db ++ [⟨db.length + 1, email, some (get_password_hash password), false, false⟩] ∧
          r.token = create_email_verification_token s.auth email now ∧
          r.background = [(email, r.token)] ∧
          register_request s db email password now d = (201, r.db_after, d)) := by
  constructor
  · intro u hu
    have h1 : register_user s db email password now =
        .error (.http .UserExistsException) := by
      unfold register_user check_user_exists
      rw [hu]
    refine ⟨h1, ?_⟩
    unfold register_request
    rw [h1]
    rfl
  · intro hnone
    have h1 : register_user s db email password now =
        .ok ⟨db ++ [⟨db.length + 1, email, some (get_password_hash password), false, false⟩],
             create_email_verification_token s.auth email now,
             [(email, create_email_verification_token s.auth email now)]⟩ := by
      unfold register_user check_user_exists
      rw [hnone]
      rfl
    refine ⟨_, h1, rfl, rfl, rfl, ?_⟩
    unfold register_request
    rw [h1]

theorem C8_register_step_order_witness :
    register_request s0 db0 "a@x.com" "pw123456" 0 true = (409, db0, false) ∧
    register_request s0 [] "b@y.com" "pw" 0 false =
      (201, [⟨1, "b@y.com", some (get_password_hash "pw"), false, false⟩], false) := by
  constructor
  · exact ((C8_register_step_order s0 db0 "a@x.com" "pw123456" 0 true).1 u0 (by decide)).2
  · obtain ⟨r, h1, h2, h3, h4, h5⟩ :=
      (C8_register_step_order s0 [] "b@y.com" "pw" 0 false).2 (by decide)
    rw [h5, h2]
    rfl

/-- Claim C9: login does not require a verified email: a stored user with
is_verified=false and correct credentials logs in successfully and the
response embeds that unverified user view; but resolving the minted
access token through the verified gate of GET /users/profile/me fails
with VerificationRequiredException (HTTP 403), and the gate raises
VerificationRequiredException exactly when the resolved user's
is_verified flag is false. -/
theorem C9_login_without_verification (s : Settings) (db : List User) (u : User)
    (email password : String) (now : Int)
    (hfind : UserDAO.get_first db email = some u)
    (hpw : verify_password password u.password = .ok true)
    (hver : u.is_verified = false)
    (hpos : 0 < s.auth.ACCESS_TOKEN_EXPIRE_MINUTES) :
    ∃ r, login_user s db email password now = .ok r ∧
      r.token_output.user_data = ⟨u.id, u.email, false⟩ ∧
      get_user_handler s db r.tokens.access_token now =
        .error (.http .VerificationRequiredException) ∧
      status_code .VerificationRequiredException = 403 ∧
      (∀ cu : CurrentUser,
          get_current_verified_user cu = .error (.http .VerificationRequiredException) ↔
            cu.is_verified = false) := by
  have hue : u.email = email := by
    simpa using List.find?_some hfind
  have hauth : authenticate_user db email password =
      .ok ⟨u.id, u.email, u.is_verified⟩ := by
    unfold authenticate_user
    simp [hfind, hpw]
  have hlog : login_user s db email password now =
      .ok ⟨⟨create_access_token s.auth ⟨some u.email, false⟩
              (60 * s.auth.ACCESS_TOKEN_EXPIRE_MINUTES) now,
            create_refresh_token s.auth ⟨some u.email, false⟩
              (86400 * s.auth.REFRESH_TOKEN_EXPIRE_DAYS) now,
            "bearer", 60 * s.auth.ACCESS_TOKEN_EXPIRE_MINUTES,
            86400 * s.auth.REFRESH_TOKEN_EXPIRE_DAYS⟩,
           set_cookies s
             (create_access_token s.auth ⟨some u.email, false⟩
               (60 * s.auth.ACCESS_TOKEN_EXPIRE_MINUTES) now)
             (create_refresh_token s.auth ⟨some u.email, false⟩
               (86400 * s.auth.REFRESH_TOKEN_EXPIRE_DAYS) now)
             (60 * s.auth.ACCESS_TOKEN_EXPIRE_MINUTES)
             (86400 * s.auth.REFRESH_TOKEN_EXPIRE_DAYS),
           ⟨create_access_token s.auth ⟨some u.email, false⟩
              (60 * s.auth.ACCESS_TOKEN_EXPIRE_MINUTES) now,
            some (create_refresh_token s.auth ⟨some u.email, false⟩
              (86400 * s.auth.REFRESH_TOKEN_EXPIRE_DAYS) now),
            "bearer", ⟨u.id, u.email, u.is_verified⟩⟩,
           db⟩ := by
    unfold login_user
    rw [hauth]
    rfl
  have hfind2 : UserDAO.get_first db u.email = some u := by
    rw [hue]; exact hfind
  have hcu : get_current_user s db
      (create_access_token s.auth ⟨some u.email, false⟩
        (60 * s.auth.ACCESS_TOKEN_EXPIRE_MINUTES) now) now =
      .ok ⟨u.id, u.email, u.is_verified, u.is_superuser⟩ :=
    get_current_user_ok s db
      ⟨some u.email, false, now + 60 * s.auth.ACCESS_TOKEN_EXPIRE_MINUTES⟩
      now u.email u
      (show now < now + 60 * s.auth.ACCESS_TOKEN_EXPIRE_MINUTES by omega) rfl hfind2
  have hgate : get_user_handler s db
      (create_access_token s.auth ⟨some u.email, false⟩
        (60 * s.auth.ACCESS_TOKEN_EXPIRE_MINUTES) now) now =
      .error (.http .VerificationRequiredException) := by
    unfold get_user_handler
    simp only [hcu]
    unfold get_current_verified_user
    simp [hver]
  refine ⟨_, hlog, by rw [hver], hgate, rfl, ?_⟩
  intro cu
  unfold get_current_verified_user
  cases hcv : cu.is_verified
  · simp [hcv]
  · simp [hcv]

theorem C9_login_without_verification_witness :
    ∃ r, login_user s0 db0 "a@x.com" "pw123456" 0 = .ok r ∧
      r.token_output.user_data = ⟨u0.id, u0.email, false⟩ ∧
      get_user_handler s0 db0 r.tokens.access_token 0 =
        .error (.http .VerificationRequiredException) ∧
      status_code .VerificationRequiredException = 403 ∧
      (∀ cu : CurrentUser,
          get_current_verified_user cu = .error (.http .VerificationRequiredException) ↔
            cu.is_verified = false) :=
  C9_login_without_verification s0 db0 u0 "a@x.com" "pw123456" 0
    (by decide) (by decide) rfl (by decide)

/-- Claim C10: a refresh request whose cookie holds a validly signed,
unexpired refresh token whose subject email matches no stored user does
NOT fail with InvalidRefreshTokenException: the None lookup result flows
into create_tokens and the request dies with an unhandled AttributeError,
unlike the missing-cookie branch which does return the 401 error. -/
theorem C10_refresh_unknown_subject (s : Settings) (db : List User) (p : Payload)
    (email : String) (now : Int)
    (hexp : now < p.exp) (hsub : p.sub = some email)
    (hnone : UserDAO.get_first db email = none) :
    refresh_user_token s db
        (some ⟨p, s.auth.JWT_SECRET_KEY, s.auth.ALGORITHM⟩) now =
      .error .AttributeError ∧
    refresh_user_token s db
        (some ⟨p, s.auth.JWT_SECRET_KEY, s.auth.ALGORITHM⟩) now ≠
      .error (.http .InvalidRefreshTokenException) ∧
    refresh_user_token s db none now = .error (.http .InvalidRefreshTokenException) := by
  have hdec := jwt_decode_own_key s p now hexp
  have h1 : refresh_user_token s db
      (some ⟨p, s.auth.JWT_SECRET_KEY, s.auth.ALGORITHM⟩) now =
      .error .AttributeError := by
    unfold refresh_user_token
    simp only [hdec]
    simp [hsub, hnone]
  exact ⟨h1, by rw [h1]; decide, rfl⟩

theorem C10_refresh_unknown_subject_witness :
    refresh_user_token s0 db0
        (some ⟨⟨some "ghost@x.com", false, 3600⟩, s0.auth.JWT_SECRET_KEY,
               s0.auth.ALGORITHM⟩) 100 =
      .error .AttributeError ∧
    refresh_user_token s0 db0
        (some ⟨⟨some "ghost@x.com", false, 3600⟩, s0.auth.JWT_SECRET_KEY,
               s0.auth.ALGORITHM⟩) 100 ≠
      .error (.http .InvalidRefreshTokenException) ∧
    refresh_user_token s0 db0 none 100 = .error (.http .InvalidRefreshTokenException) :=
  C10_refresh_unknown_subject s0 db0 ⟨some "ghost@x.com", false, 3600⟩ "ghost@x.com" 100
    (by decide) rfl (by decide)
